import Mathlib

/-!
Verification of the `short-url` URL-shortener backend.

The API layer is embedded from `url-shortener-backend/server.js`. The data
access layer (`urlService.js`) and the connection pool (`database.js`) are not
part of the available sources; their operations are modelled from the
specification (§4.1 of the spec), as marked on each definition. The store is
modelled as a list of `ShortLink` records; "now" is an abstract `Nat`
timestamp; a store failure ("the awaited service call throws a non-`expired`
error") is an explicit boolean parameter on each route that touches the store.
-/

namespace ShortUrl

/-- One stored short-link record (one row of the `urls` table, spec §3). -/
structure ShortLink where
  shortCode : String
  originalUrl : String
  createdAt : Nat
  expiresAt : Option Nat
  clickCount : Nat
  deriving Repr, DecidableEq

/-- The persistence store: the collection of all `ShortLink` rows. -/
abbrev Store := List ShortLink

/-- `pat` is a leading piece of `l` (character-list level). -/
def listStarts : List Char → List Char → Bool
  | [], _ => true
  | _ :: _, [] => false
  | p :: ps, c :: cs => p == c && listStarts ps cs

/-- `pat` occurs somewhere inside `l` (character-list level). -/
def listOccurs (pat : List Char) : List Char → Bool
  | [] => pat.isEmpty
  | c :: cs => listStarts pat (c :: cs) || listOccurs pat cs

/-- JavaScript `String.prototype.includes`: `sub` occurs somewhere in `s`. -/
def jsIncludes (s sub : String) : Bool :=
  listOccurs sub.toList s.toList

/-- Split `l` at the first occurrence of `pat`, if any (character-list
level): the part before the occurrence and the part after it. -/
def splitFirst (pat : List Char) : List Char → Option (List Char × List Char)
  | [] => if pat.isEmpty then some ([], []) else none
  | c :: cs =>
      if listStarts pat (c :: cs) then some ([], (c :: cs).drop pat.length)
      else
        match splitFirst pat cs with
        | some (pre, post) => some (c :: pre, post)
        | none => none

/-- Models the WHATWG URL constructor check `new URL(string)` performed by
`isValidUrl` in `server.js` (the URL parser itself is a platform collaborator,
spec §4.3: "url must be a syntactically valid absolute URL"). A string parses
when it has a nonempty scheme, then `://`, then a nonempty remainder. -/
def urlParses (s : String) : Bool :=
  match splitFirst "://".toList s.toList with
  | some (scheme, rest) => !scheme.isEmpty && !rest.isEmpty
  | none => false

/-- Drop leading whitespace from a character list. -/
def dropLeadingWs : List Char → List Char
  | [] => []
  | c :: cs => if c.isWhitespace then dropLeadingWs cs else c :: cs

/-- JavaScript `String.prototype.trim`: strip whitespace from both ends. -/
def jsTrim (s : String) : String :=
  String.mk (List.reverse (dropLeadingWs (List.reverse (dropLeadingWs s.toList))))

/-- `isValidUrl` from `server.js` lines 17-29: the string must parse as a URL
and must not contain the substrings `localhost` or `azurewebsites.net`. -/
def isValidUrl (s : String) : Bool :=
  if urlParses s then
    if jsIncludes s "localhost" || jsIncludes s "azurewebsites.net" then false
    else true
  else false

/-- First record whose `originalUrl` equals `url` (the dedup lookup). -/
def findByUrl (s : Store) (url : String) : Option ShortLink :=
  s.find? (fun r => r.originalUrl == url)

/-- First record whose `shortCode` equals `code` (the primary lookup). -/
def findByCode (s : Store) (code : String) : Option ShortLink :=
  s.find? (fun r => r.shortCode == code)

/-- Modelled from the spec: `createShortUrl(url, expiresAt)` of the missing
`urlService.js` (spec §4.1 `createShortLink`). If a record with the same
`originalUrl` exists, its `shortCode` is returned and the store is unchanged
(the new `expiresAt` is ignored); otherwise a record with `createdAt = now`,
`clickCount = 0` and the given `expiresAt` is inserted. The short-code
generator's generate/check/regenerate loop (spec §4.2) is abstracted into the
`freshCode` argument, the code it settles on. -/
def createShortUrl (s : Store) (url : String) (expiresAt : Option Nat)
    (now : Nat) (freshCode : String) : String × Store :=
  match findByUrl s url with
  | some r => (r.shortCode, s)
  | none =>
      (freshCode,
        { shortCode := freshCode, originalUrl := url, createdAt := now,
          expiresAt := expiresAt, clickCount := 0 } :: s)

/-- Typed failures of the resolution operations (spec §7 taxonomy; the
`expired` case carries the expiration timestamp for display). -/
inductive ResolveErr where
  | notFound
  | expired (expiresAt : Nat)
  deriving Repr, DecidableEq

/-- Modelled from the spec: `getUrlByShortCode(shortCode)` of the missing
`urlService.js` (spec §4.1 `resolveShortLink`). Not found fails with
`notFound`; found with `expiresAt` set and `now > expiresAt` fails with
`expired expiresAt`; otherwise the record is returned. -/
def getUrlByShortCode (s : Store) (now : Nat) (code : String) :
    Except ResolveErr ShortLink :=
  match findByCode s code with
  | none => Except.error ResolveErr.notFound
  | some r =>
      match r.expiresAt with
      | some t => if t < now then Except.error (ResolveErr.expired t) else Except.ok r
      | none => Except.ok r

/-- Modelled from the spec: `incrementClickCount(shortCode)` of the missing
`urlService.js` (spec §4.1): adds exactly 1 to the `clickCount` of the record
matching `code`; a no-op when no record matches. -/
def incrementClickCount (s : Store) (code : String) : Store :=
  s.map (fun r =>
    if r.shortCode == code then { r with clickCount := r.clickCount + 1 } else r)

/-- The statistics snapshot returned by `getUrlStats` (all five fields,
with the JSON field names of the `/api/stats` response). -/
structure UrlStats where
  short_code : String
  original_url : String
  click_count : Nat
  created_at : Nat
  expires_at : Option Nat
  deriving Repr, DecidableEq

/-- Modelled from the spec: `getUrlStats(shortCode)` of the missing
`urlService.js` (spec §4.1 `getStats`): `notFound` when no record matches,
otherwise a snapshot of all fields, with no expiration check. -/
def getUrlStats (s : Store) (code : String) : Except ResolveErr UrlStats :=
  match findByCode s code with
  | none => Except.error ResolveErr.notFound
  | some r =>
      Except.ok
        { short_code := r.shortCode, original_url := r.originalUrl,
          click_count := r.clickCount, created_at := r.createdAt,
          expires_at := r.expiresAt }

/-- Body of an HTTP response produced by `server.js`. -/
inductive RespBody where
  | shortenOk (short_url short_code : String)
  | jsonError (msg : String)
  | statsJson (st : UrlStats)
  | redirect (location : String)
  | expiredPage (expires_at : Nat)
  | notFoundPage
  | pngQr (encoded : String)
  | debugList (rows : List (String × String))
  deriving Repr, DecidableEq

/-- An HTTP response: status code and body. -/
structure HttpResponse where
  status : Nat
  body : RespBody
  deriving Repr, DecidableEq

/-- The JSON body of a `POST /api/shorten` request: `url` may be absent
(`none`) and `expires_at` may be absent or null (`none`). -/
structure ShortenReq where
  url : Option String
  expires_at : Option Nat
  deriving Repr, DecidableEq

/-- `url = url ? url.trim() : null` from `server.js` line 72: an absent or
empty (falsy) `url` becomes null, otherwise it is trimmed. -/
def normalizeUrl (ou : Option String) : Option String :=
  match ou with
  | some u => if u == "" then none else some (jsTrim u)
  | none => none

/-- `POST /api/shorten` (`server.js` lines 65-96): reject a missing, blank or
invalid URL with 400 before calling the service; a throwing service call is
caught as 500 `Failed to shorten`; otherwise respond with `short_code` and
`short_url = BASE_URL ++ "/" ++ short_code`. -/
def postShorten (baseUrl : String) (s : Store) (now : Nat) (freshCode : String)
    (storeFail : Bool) (req : ShortenReq) : HttpResponse × Store :=
  match normalizeUrl req.url with
  | none => (⟨400, RespBody.jsonError "Invalid URL"⟩, s)
  | some u =>
      if (u == "") || !(isValidUrl u) then
        (⟨400, RespBody.jsonError "Invalid URL"⟩, s)
      else if storeFail then
        (⟨500, RespBody.jsonError "Failed to shorten"⟩, s)
      else
        (⟨200,
          RespBody.shortenOk
            (baseUrl ++ "/" ++ (createShortUrl s u req.expires_at now freshCode).1)
            (createShortUrl s u req.expires_at now freshCode).1⟩,
         (createShortUrl s u req.expires_at now freshCode).2)

/-- `GET /api/stats/:shortCode` (`server.js` lines 98-109): any error thrown
by the service — `notFound` or a store failure alike — is caught as 404
`Not found`; otherwise the stats snapshot is returned as JSON with 200. -/
def statsRoute (s : Store) (storeFail : Bool) (code : String) : HttpResponse :=
  if storeFail then ⟨404, RespBody.jsonError "Not found"⟩
  else
    match getUrlStats s code with
    | Except.error _ => ⟨404, RespBody.jsonError "Not found"⟩
    | Except.ok st => ⟨200, RespBody.statsJson st⟩

/-- `GET /api/qr/:shortCode` (`server.js` lines 112-122): streams a PNG QR
code of `BASE_URL ++ "/" ++ shortCode`; the store is never consulted. -/
def qrRoute (baseUrl : String) (s : Store) (code : String) :
    HttpResponse × Store :=
  (⟨200, RespBody.pngQr (baseUrl ++ "/" ++ code)⟩, s)

/-- `GET /:shortCode` (`server.js` lines 128-184): a successful lookup
redirects (302) to the original URL and increments the click count; an error
tagged `expired` renders the 410 page with the expiration timestamp; any
other error — `notFound` or a store failure — renders the 404 page. -/
def redirectRoute (s : Store) (now : Nat) (storeFail : Bool) (code : String) :
    HttpResponse × Store :=
  if storeFail then (⟨404, RespBody.notFoundPage⟩, s)
  else
    match getUrlByShortCode s now code with
    | Except.ok row =>
        (⟨302, RespBody.redirect row.originalUrl⟩, incrementClickCount s code)
    | Except.error (ResolveErr.expired t) => (⟨410, RespBody.expiredPage t⟩, s)
    | Except.error ResolveErr.notFound => (⟨404, RespBody.notFoundPage⟩, s)

/-- `GET /api/debug/urls` (`server.js` lines 49-62): lists all rows; a failing
query is surfaced as 500 with the error's own message (`err.message`). -/
def debugRoute (s : Store) (storeFail : Bool) (failMsg : String) : HttpResponse :=
  if storeFail then ⟨500, RespBody.jsonError failMsg⟩
  else ⟨200, RespBody.debugList (s.map (fun r => (r.shortCode, r.originalUrl)))⟩

/-- One inbound request, abstracting over the route-specific inputs. -/
inductive Op where
  | shorten (req : ShortenReq) (now : Nat) (freshCode : String) (storeFail : Bool)
  | stats (code : String) (storeFail : Bool)
  | qr (code : String)
  | redirect (code : String) (now : Nat) (storeFail : Bool)
  | debug (storeFail : Bool) (failMsg : String)

/-- Dispatch one request against the store, returning the response and the
updated store (routes that never write return the store unchanged). -/
def applyOp (baseUrl : String) (s : Store) : Op → HttpResponse × Store
  | Op.shorten req now fresh sf => postShorten baseUrl s now fresh sf req
  | Op.stats code sf => (statsRoute s sf code, s)
  | Op.qr code => qrRoute baseUrl s code
  | Op.redirect code now sf => redirectRoute s now sf code
  | Op.debug sf msg => (debugRoute s sf msg, s)

/-- The store after `n` further visits of `GET /:code` (no store failures). -/
def resolveN (now : Nat) (code : String) : Nat → Store → Store
  | 0, s => s
  | n + 1, s => resolveN now code n (redirectRoute s now false code).2

/-- Short codes are pairwise distinct in the store (spec §3 invariant,
owned by the persistence store). -/
def CodesUnique (s : Store) : Prop :=
  s.Pairwise (fun a b => a.shortCode ≠ b.shortCode)

/-- A record that has not expired by time `now` (spec §3: expired means
`expiresAt` set and in the past). -/
def live (now : Nat) (r : ShortLink) : Prop :=
  ∀ t, r.expiresAt = some t → now ≤ t

/-- With pairwise-distinct short codes, looking up a stored record's own code
finds exactly that record. -/
theorem findByCode_of_mem_uniq {s : Store} {r : ShortLink}
    (huniq : CodesUnique s) (hr : r ∈ s) : findByCode s r.shortCode = some r := by
  induction s with
  | nil => cases hr
  | cons a tl ih =>
      rcases List.pairwise_cons.mp huniq with ⟨ha, htl⟩
      rcases List.mem_cons.mp hr with h | h
      · subst h
        show List.find? (fun x => x.shortCode == r.shortCode) (r :: tl) = some r
        rw [List.find?_cons_of_pos (p := fun x : ShortLink => x.shortCode == r.shortCode) _ (by simp)]
      · have hne : ¬((fun x : ShortLink => x.shortCode == r.shortCode) a) = true := by
          simpa using ha r h
        show List.find? (fun x => x.shortCode == r.shortCode) (a :: tl) = some r
        rw [List.find?_cons_of_neg (p := fun x : ShortLink => x.shortCode == r.shortCode) _ hne]
        exact ih htl h

/-- Incrementing a code's click count shifts the record found at that code by
exactly one click and changes nothing else about it. -/
theorem findByCode_incrementClickCount (s : Store) (code : String) :
    findByCode (incrementClickCount s code) code =
      (findByCode s code).map (fun r => { r with clickCount := r.clickCount + 1 }) := by
  induction s with
  | nil => rfl
  | cons a tl ih =>
      unfold incrementClickCount findByCode at ih ⊢
      rw [List.map_cons]
      by_cases h : (a.shortCode == code) = true
      · rw [if_pos h,
          List.find?_cons_of_pos (p := fun r : ShortLink => r.shortCode == code) _
            (show (({ a with clickCount := a.clickCount + 1 } : ShortLink).shortCode
              == code) = true from h),
          List.find?_cons_of_pos (p := fun r : ShortLink => r.shortCode == code) _ h]
        rfl
      · rw [if_neg h,
          List.find?_cons_of_neg (p := fun r : ShortLink => r.shortCode == code) _ h,
          List.find?_cons_of_neg (p := fun r : ShortLink => r.shortCode == code) _ h]
        exact ih

/-- A found, non-expired lookup succeeds with the found record. -/
theorem getUrlByShortCode_ok {s : Store} {now : Nat} {code : String}
    {r : ShortLink} (h : findByCode s code = some r) (hl : live now r) :
    getUrlByShortCode s now code = Except.ok r := by
  unfold getUrlByShortCode
  rw [h]
  dsimp only
  cases he : r.expiresAt with
  | none => rfl
  | some t =>
      dsimp only
      rw [if_neg (Nat.not_lt.mpr (hl t he))]

/-- A found, non-expired visit of `GET /:code` redirects and increments. -/
theorem redirectRoute_ok {s : Store} {now : Nat} {code : String}
    {r : ShortLink} (h : findByCode s code = some r) (hl : live now r) :
    redirectRoute s now false code =
      (⟨302, RespBody.redirect r.originalUrl⟩, incrementClickCount s code) := by
  simp [redirectRoute, getUrlByShortCode_ok h hl]

/-- After `n` successful visits, the record at `code` has gained `n` clicks
and is otherwise unchanged. -/
theorem resolveN_findByCode (now : Nat) (code : String) (n : Nat) :
    ∀ (s : Store) (r : ShortLink), findByCode s code = some r → live now r →
      findByCode (resolveN now code n s) code =
        some { r with clickCount := r.clickCount + n } := by
  induction n with
  | zero =>
      intro s r h _
      simpa using h
  | succ n ih =>
      intro s r h hl
      have hred := redirectRoute_ok h hl
      have hfind : findByCode (incrementClickCount s code) code =
          some { r with clickCount := r.clickCount + 1 } := by
        rw [findByCode_incrementClickCount, h]
        rfl
      have hl' : live now { r with clickCount := r.clickCount + 1 } := by
        intro t ht
        exact hl t ht
      have := ih (incrementClickCount s code) _ hfind hl'
      show findByCode (resolveN now code n (redirectRoute s now false code).2) code = _
      rw [hred]
      simpa [Nat.add_assoc, Nat.add_comm 1 n] using this

/-- Every record of the store survives a `POST /api/shorten` unchanged:
the store is either untouched or extended by one fresh record. -/
theorem postShorten_store_shape (baseUrl : String) (s : Store) (now : Nat)
    (fresh : String) (sf : Bool) (req : ShortenReq) :
    (postShorten baseUrl s now fresh sf req).2 = s ∨
      ∃ rec, (postShorten baseUrl s now fresh sf req).2 = rec :: s := by
  unfold postShorten
  cases hn : normalizeUrl req.url with
  | none => exact Or.inl rfl
  | some u =>
      by_cases hb : ((u == "") || !(isValidUrl u)) = true
      · simp [hb]
      · cases sf with
        | true => simp [hb]
        | false =>
            simp only [hb, Bool.false_eq_true, if_false, if_true]
            unfold createShortUrl
            cases hf : findByUrl s u with
            | some r => exact Or.inl rfl
            | none => exact Or.inr ⟨_, rfl⟩

/-- C1: for every stored record whose `expiresAt` is set and earlier than the
current time at lookup, resolving its short code fails with `Expired` carrying
the expiration timestamp, `GET /:shortCode` surfaces it as a 410 page showing
that timestamp, and the store — hence every record's `clickCount` — is left
unchanged (no increment is performed on the expired path). -/
theorem C1_expired_resolution (s : Store) (now : Nat) (r : ShortLink) (t : Nat)
    (huniq : CodesUnique s) (hr : r ∈ s) (hexp : r.expiresAt = some t)
    (ht : t < now) :
    getUrlByShortCode s now r.shortCode = Except.error (ResolveErr.expired t) ∧
    redirectRoute s now false r.shortCode = (⟨410, RespBody.expiredPage t⟩, s) := by
  have hf := findByCode_of_mem_uniq huniq hr
  have h1 : getUrlByShortCode s now r.shortCode =
      Except.error (ResolveErr.expired t) := by
    unfold getUrlByShortCode
    rw [hf]
    dsimp only
    rw [hexp]
    dsimp only
    rw [if_pos ht]
  exact ⟨h1, by simp [redirectRoute, h1]⟩

/-- Witness for C1 at a concrete expired record. -/
theorem C1_expired_resolution_witness :
    getUrlByShortCode [⟨"ab", "https://e.com", 0, some 5, 3⟩] 10 "ab" =
      Except.error (ResolveErr.expired 5) ∧
    redirectRoute [⟨"ab", "https://e.com", 0, some 5, 3⟩] 10 false "ab" =
      (⟨410, RespBody.expiredPage 5⟩, [⟨"ab", "https://e.com", 0, some 5, 3⟩]) :=
  C1_expired_resolution [⟨"ab", "https://e.com", 0, some 5, 3⟩] 10
    ⟨"ab", "https://e.com", 0, some 5, 3⟩ 5
    (by simp [CodesUnique]) (by simp) rfl (by omega)

/-- C2: for a URL accepted with no expiration, creating a short link and then
resolving the returned short code yields a record whose `originalUrl` is
exactly the created URL (`resolveShortLink(createShortLink(u).short_code)
.originalUrl = u`), provided short codes are unique and no existing record for
that URL carries an expiration. -/
theorem C2_round_trip (s : Store) (u : String) (now now2 : Nat) (fresh : String)
    (huniq : CodesUnique s)
    (hnoexp : ∀ r ∈ s, r.originalUrl = u → r.expiresAt = none) :
    ∃ row,
      getUrlByShortCode (createShortUrl s u none now fresh).2 now2
          (createShortUrl s u none now fresh).1 = Except.ok row ∧
      row.originalUrl = u := by
  cases hf : findByUrl s u with
  | none =>
      refine ⟨⟨fresh, u, now, none, 0⟩, ?_, rfl⟩
      unfold createShortUrl
      rw [hf]
      dsimp only
      refine getUrlByShortCode_ok ?_ ?_
      · show List.find? _ _ = _
        rw [List.find?_cons_of_pos (p := fun x : ShortLink => x.shortCode == fresh) _
          (by simp)]
      · intro t ht
        exact Option.noConfusion ht
  | some r =>
      have hr : r ∈ s := List.mem_of_find?_eq_some hf
      have hu : r.originalUrl = u := by simpa using List.find?_some hf
      refine ⟨r, ?_, hu⟩
      unfold createShortUrl
      rw [hf]
      dsimp only
      refine getUrlByShortCode_ok (findByCode_of_mem_uniq huniq hr) ?_
      intro t ht
      rw [hnoexp r hr hu] at ht
      exact Option.noConfusion ht

/-- Witness for C2 on an empty store. -/
theorem C2_round_trip_witness :
    ∃ row,
      getUrlByShortCode (createShortUrl [] "https://e.com" none 0 "c1").2 7
          (createShortUrl [] "https://e.com" none 0 "c1").1 = Except.ok row ∧
      row.originalUrl = "https://e.com" :=
  C2_round_trip [] "https://e.com" 0 7 "c1" (by simp [CodesUnique]) (by simp)

/-- C3: creating twice with the same trimmed URL is idempotent — the second
call returns the first call's short code, leaves the store exactly as the
first call left it (so the newly supplied `expiresAt` is ignored and the
original record's expiration stands), and the store holds exactly one record
for that URL. -/
theorem C3_create_idempotent (s : Store) (u : String) (e1 e2 : Option Nat)
    (n1 n2 : Nat) (f1 f2 : String) (h : findByUrl s u = none) :
    (createShortUrl (createShortUrl s u e1 n1 f1).2 u e2 n2 f2).1 =
        (createShortUrl s u e1 n1 f1).1 ∧
    (createShortUrl (createShortUrl s u e1 n1 f1).2 u e2 n2 f2).2 =
        (createShortUrl s u e1 n1 f1).2 ∧
    List.countP (fun r => r.originalUrl == u) (createShortUrl s u e1 n1 f1).2 = 1 := by
  have hzero : List.countP (fun r : ShortLink => r.originalUrl == u) s = 0 :=
    List.countP_eq_zero.mpr (by simpa [findByUrl, List.find?_eq_none] using h)
  unfold createShortUrl
  rw [h]
  dsimp only
  have hfind : findByUrl ((⟨f1, u, n1, e1, 0⟩ : ShortLink) :: s) u =
      some (⟨f1, u, n1, e1, 0⟩ : ShortLink) := by
    show List.find? _ _ = _
    rw [List.find?_cons_of_pos (p := fun x : ShortLink => x.originalUrl == u) _
      (by simp)]
  rw [hfind]
  dsimp only
  refine ⟨rfl, rfl, ?_⟩
  rw [List.countP_cons_of_pos _ _ (by simp), hzero]

/-- Witness for C3 on an empty store. -/
theorem C3_create_idempotent_witness :
    (createShortUrl (createShortUrl [] "https://e.com" (some 9) 1 "c1").2
        "https://e.com" none 2 "c2").1 =
      (createShortUrl [] "https://e.com" (some 9) 1 "c1").1 ∧
    (createShortUrl (createShortUrl [] "https://e.com" (some 9) 1 "c1").2
        "https://e.com" none 2 "c2").2 =
      (createShortUrl [] "https://e.com" (some 9) 1 "c1").2 ∧
    List.countP (fun r => r.originalUrl == "https://e.com")
      (createShortUrl [] "https://e.com" (some 9) 1 "c1").2 = 1 :=
  C3_create_idempotent [] "https://e.com" (some 9) none 1 2 "c1" "c2" rfl

/-- C5 fails as stated: a store failure on `GET /api/stats/:shortCode` is
surfaced as 404 `Not found`, not as a 500. -/
theorem C5_counterexample :
    (statsRoute [] true "x").status = 404 ∧
    ¬(statsRoute [] true "x").status = 500 := by
  exact ⟨rfl, by decide⟩

/-- C5 amended: a store failure is surfaced as 500 with the generic message
`Failed to shorten` on `POST /api/shorten` only; `GET /api/stats/:shortCode`
surfaces it as 404 `Not found`, `GET /:shortCode` as the 404 HTML page, and
`GET /api/debug/urls` as a 500 that exposes the error's own message. -/
theorem C5_store_failure_mapping (baseUrl : String) (s : Store) (now : Nat)
    (fresh : String) (code u failMsg : String) (e : Option Nat)
    (hne : ¬u = "") (htrim : jsTrim u = u) (hvalid : isValidUrl u = true) :
    postShorten baseUrl s now fresh true ⟨some u, e⟩ =
      (⟨500, RespBody.jsonError "Failed to shorten"⟩, s) ∧
    statsRoute s true code = ⟨404, RespBody.jsonError "Not found"⟩ ∧
    redirectRoute s now true code = (⟨404, RespBody.notFoundPage⟩, s) ∧
    debugRoute s true failMsg = ⟨500, RespBody.jsonError failMsg⟩ := by
  have hcond : ¬(((u == "") || !(isValidUrl u)) = true) := by
    simp [hvalid, hne]
  refine ⟨?_, rfl, rfl, rfl⟩
  unfold postShorten normalizeUrl
  dsimp only
  rw [if_neg (show ¬((u == "") = true) by simpa using hne)]
  dsimp only
  rw [htrim, if_neg hcond, if_pos rfl]

/-- Witness for the amended C5 at a concrete valid request. -/
theorem C5_store_failure_mapping_witness :
    postShorten "http://b" [] 3 "c1" true ⟨some "https://e.com", none⟩ =
      (⟨500, RespBody.jsonError "Failed to shorten"⟩, []) ∧
    statsRoute [] true "x" = ⟨404, RespBody.jsonError "Not found"⟩ ∧
    redirectRoute [] 3 true "x" = (⟨404, RespBody.notFoundPage⟩, []) ∧
    debugRoute [] true "boom" = ⟨500, RespBody.jsonError "boom"⟩ :=
  C5_store_failure_mapping "http://b" [] 3 "c1" "x" "https://e.com" "boom" none
    (by decide) (by decide) (by decide)

/-- C6 fails as stated: with base URL `http://sho.rt`, a well-formed request
URL pointing at the service's own base host is accepted — 200 and a record is
created — rather than rejected with 400. -/
theorem C6_counterexample :
    (postShorten "http://sho.rt" [] 0 "c1" false
      ⟨some "http://sho.rt/page", none⟩).1.status = 200 ∧
    (postShorten "http://sho.rt" [] 0 "c1" false
      ⟨some "http://sho.rt/page", none⟩).2 =
        [⟨"c1", "http://sho.rt/page", 0, none, 0⟩] :=
  ⟨rfl, rfl⟩

/-- C6 amended: a `POST /api/shorten` request whose trimmed URL does not parse,
or contains the substring `localhost` or `azurewebsites.net` (the fixed check
that stands in for "the service's own host": its default local host and its
Azure deployment hosts), is rejected with 400 and no record is created; URLs
pointing at a base host outside those substrings are not rejected. -/
theorem C6_invalid_url_rejected (baseUrl : String) (s : Store) (now : Nat)
    (fresh : String) (sf : Bool) (u : String) (e : Option Nat)
    (h : urlParses (jsTrim u) = false ∨ jsIncludes (jsTrim u) "localhost" = true ∨
      jsIncludes (jsTrim u) "azurewebsites.net" = true) :
    postShorten baseUrl s now fresh sf ⟨some u, e⟩ =
      (⟨400, RespBody.jsonError "Invalid URL"⟩, s) := by
  have hval : isValidUrl (jsTrim u) = false := by
    unfold isValidUrl
    rcases h with h | h | h
    · simp [h]
    · by_cases hp : urlParses (jsTrim u) = true
      · simp [hp, h]
      · simp only [Bool.not_eq_true] at hp
        simp [hp]
    · by_cases hp : urlParses (jsTrim u) = true
      · simp [hp, h]
      · simp only [Bool.not_eq_true] at hp
        simp [hp]
  unfold postShorten normalizeUrl
  dsimp only
  by_cases h0 : (u == "") = true
  · rw [if_pos h0]
  · rw [if_neg h0]
    dsimp only
    rw [if_pos (by simp [hval])]

/-- Witness for the amended C6 at the spec's own malformed input. -/
theorem C6_invalid_url_rejected_witness :
    postShorten "http://b" [] 0 "c1" false ⟨some "not a url", none⟩ =
      (⟨400, RespBody.jsonError "Invalid URL"⟩, []) :=
  C6_invalid_url_rejected "http://b" [] 0 "c1" false "not a url" none
    (Or.inl (by decide))

/-- C7: `GET /api/stats/:shortCode` answers 404 `Not found` when no record
matches the code, and otherwise a 200 snapshot of all five fields
(`short_code`, `original_url`, `click_count`, `created_at`, `expires_at`);
no current time is consulted, so an expired record's stats are returned
exactly like a live record's. -/
theorem C7_stats_route (s : Store) (code : String) :
    (findByCode s code = none →
      statsRoute s false code = ⟨404, RespBody.jsonError "Not found"⟩) ∧
    (∀ r, findByCode s code = some r →
      statsRoute s false code =
        ⟨200, RespBody.statsJson
          ⟨r.shortCode, r.originalUrl, r.clickCount, r.createdAt, r.expiresAt⟩⟩) := by
  constructor
  · intro h
    simp [statsRoute, getUrlStats, h]
  · intro r h
    simp [statsRoute, getUrlStats, h]

/-- Witness for C7: the stats of an already-expired record are served with
200 like any other record's. -/
theorem C7_stats_route_witness :
    statsRoute [(⟨"ab", "u", 0, some 1, 7⟩ : ShortLink)] false "ab" =
      ⟨200, RespBody.statsJson ⟨"ab", "u", 7, 0, some 1⟩⟩ :=
  (C7_stats_route [⟨"ab", "u", 0, some 1, 7⟩] "ab").2 ⟨"ab", "u", 0, some 1, 7⟩ rfl

/-- C8: every successful `POST /api/shorten` response carries a `short_code`
and a `short_url`, and `short_url` is exactly the base URL, a slash, and the
`short_code`. -/
theorem C8_short_url_shape (baseUrl : String) (s : Store) (now : Nat)
    (fresh : String) (sf : Bool) (req : ShortenReq)
    (hst : (postShorten baseUrl s now fresh sf req).1.status = 200) :
    ∃ sc, (postShorten baseUrl s now fresh sf req).1.body =
      RespBody.shortenOk (baseUrl ++ "/" ++ sc) sc := by
  unfold postShorten at hst ⊢
  cases hn : normalizeUrl req.url with
  | none =>
      rw [hn] at hst
      simp at hst
  | some u =>
      rw [hn] at hst
      dsimp only at hst ⊢
      by_cases hb : ((u == "") || !(isValidUrl u)) = true
      · rw [if_pos hb] at hst
        simp at hst
      · rw [if_neg hb] at hst ⊢
        cases sf with
        | true => simp at hst
        | false => exact ⟨_, rfl⟩

/-- Witness for C8 at a concrete successful request. -/
theorem C8_short_url_shape_witness :
    ∃ sc, (postShorten "http://b" [] 0 "c1" false
        ⟨some "https://e.com", none⟩).1.body =
      RespBody.shortenOk ("http://b" ++ "/" ++ sc) sc :=
  C8_short_url_shape "http://b" [] 0 "c1" false ⟨some "https://e.com", none⟩ rfl

/-- C9: `GET /api/qr/:shortCode` responds 200 `image/png` with a QR code
encoding the base URL, a slash, and the given code, for every store alike —
the store is never consulted and is left unchanged, so unknown or expired
codes still yield a QR image. -/
theorem C9_qr_ignores_store (baseUrl : String) (s : Store) (code : String) :
    qrRoute baseUrl s code = (⟨200, RespBody.pngQr (baseUrl ++ "/" ++ code)⟩, s) :=
  rfl

/-- C10: a `POST /api/shorten` request whose body lacks `url` or whose `url`
trims to the empty string is rejected with 400 before the service is invoked
— for any store-failure state alike — and the store is unchanged. -/
theorem C10_blank_url_rejected (baseUrl : String) (s : Store) (now : Nat)
    (fresh : String) (sf : Bool) (e : Option Nat) (ou : Option String)
    (h : ou = none ∨ ∃ u, ou = some u ∧ jsTrim u = "") :
    postShorten baseUrl s now fresh sf ⟨ou, e⟩ =
      (⟨400, RespBody.jsonError "Invalid URL"⟩, s) := by
  rcases h with h | ⟨u, hu, ht⟩
  · subst h
    rfl
  · subst hu
    unfold postShorten normalizeUrl
    dsimp only
    by_cases h0 : (u == "") = true
    · rw [if_pos h0]
    · rw [if_neg h0]
      dsimp only
      rw [ht]
      simp

/-- Witness for C10 at a whitespace-only URL with a failing store. -/
theorem C10_blank_url_rejected_witness :
    postShorten "b" [] 0 "c" true ⟨some "   ", none⟩ =
      (⟨400, RespBody.jsonError "Invalid URL"⟩, []) :=
  C10_blank_url_rejected "b" [] 0 "c" true none (some "   ")
    (Or.inr ⟨"   ", rfl, by decide⟩)

/-- Click-count evolution across any single request: every record survives
with the same short code; its count is unchanged, except that a successful
(302) redirect of exactly its own code raises it by exactly one. -/
theorem applyOp_clickCount (baseUrl : String) (s : Store) (op : Op) (r : ShortLink)
    (hr : r ∈ s) :
    ∃ r' ∈ (applyOp baseUrl s op).2,
      r'.shortCode = r.shortCode ∧
      (r'.clickCount = r.clickCount ∨
        (r'.clickCount = r.clickCount + 1 ∧
          ∃ now, op = Op.redirect r.shortCode now false ∧
            (applyOp baseUrl s op).1.status = 302)) := by
  cases op with
  | shorten req now fresh sf =>
      rcases postShorten_store_shape baseUrl s now fresh sf req with h | ⟨rec, h⟩
      · exact ⟨r, by simpa [applyOp, h] using hr, rfl, Or.inl rfl⟩
      · refine ⟨r, ?_, rfl, Or.inl rfl⟩
        show r ∈ (applyOp baseUrl s (Op.shorten req now fresh sf)).2
        simp only [applyOp]
        rw [h]
        exact List.mem_cons_of_mem _ hr
  | stats code sf => exact ⟨r, hr, rfl, Or.inl rfl⟩
  | qr code => exact ⟨r, hr, rfl, Or.inl rfl⟩
  | debug sf msg => exact ⟨r, hr, rfl, Or.inl rfl⟩
  | redirect code now sf =>
      cases sf with
      | true => exact ⟨r, by simpa [applyOp, redirectRoute] using hr, rfl, Or.inl rfl⟩
      | false =>
          cases hlk : getUrlByShortCode s now code with
          | error e =>
              cases e with
              | notFound =>
                  exact ⟨r, by simpa [applyOp, redirectRoute, hlk] using hr, rfl,
                    Or.inl rfl⟩
              | expired t =>
                  exact ⟨r, by simpa [applyOp, redirectRoute, hlk] using hr, rfl,
                    Or.inl rfl⟩
          | ok row =>
              have hst : applyOp baseUrl s (Op.redirect code now false) =
                  (⟨302, RespBody.redirect row.originalUrl⟩,
                    incrementClickCount s code) := by
                simp [applyOp, redirectRoute, hlk]
              by_cases hc : (r.shortCode == code) = true
              · have hcode : code = r.shortCode := (beq_iff_eq.mp hc).symm
                refine ⟨{ r with clickCount := r.clickCount + 1 }, ?_, rfl,
                  Or.inr ⟨rfl, now, ?_, ?_⟩⟩
                · rw [hst]
                  exact List.mem_map.mpr ⟨r, hr, by simp [hc]⟩
                · rw [hcode]
                · rw [hst]
              · refine ⟨r, ?_, rfl, Or.inl rfl⟩
                rw [hst]
                exact List.mem_map.mpr ⟨r, hr, by simp [hc]⟩

/-- After `n` successful visits of `GET /:code`, the stats snapshot reports
exactly `n` more clicks and every other field unchanged. -/
theorem resolveN_stats (s : Store) (now : Nat) (code : String) (r : ShortLink)
    (n : Nat) (h : findByCode s code = some r) (hl : live now r) :
    getUrlStats (resolveN now code n s) code =
      Except.ok ⟨r.shortCode, r.originalUrl, r.clickCount + n, r.createdAt,
        r.expiresAt⟩ := by
  have hfind := resolveN_findByCode now code n s r h hl
  unfold getUrlStats
  rw [hfind]

/-- C4: `clickCount` starts at 0 when a record is created; across every
request it never decreases — each record survives with its short code and
either an unchanged count or a count raised by exactly 1, the latter only
when the request is a successful (302) redirect of that record's own code;
and `n` successful redirect resolutions raise the `click_count` reported by
stats by exactly `n`. -/
theorem C4_clickCount_lifecycle (baseUrl : String) :
    (∀ (s : Store) (u : String) (e : Option Nat) (now : Nat) (fresh : String),
      findByUrl s u = none →
        (createShortUrl s u e now fresh).2 = (⟨fresh, u, now, e, 0⟩ : ShortLink) :: s) ∧
    (∀ (s : Store) (op : Op) (r : ShortLink), r ∈ s →
      ∃ r' ∈ (applyOp baseUrl s op).2,
        r'.shortCode = r.shortCode ∧
        (r'.clickCount = r.clickCount ∨
          (r'.clickCount = r.clickCount + 1 ∧
            ∃ now, op = Op.redirect r.shortCode now false ∧
              (applyOp baseUrl s op).1.status = 302))) ∧
    (∀ (s : Store) (now : Nat) (code : String) (r : ShortLink) (n : Nat),
      findByCode s code = some r → live now r →
        getUrlStats (resolveN now code n s) code =
          Except.ok ⟨r.shortCode, r.originalUrl, r.clickCount + n, r.createdAt,
            r.expiresAt⟩) := by
  refine ⟨?_, ?_, ?_⟩
  · intro s u e now fresh h
    unfold createShortUrl
    rw [h]
  · intro s op r hr
    exact applyOp_clickCount baseUrl s op r hr
  · intro s now code r n h hl
    exact resolveN_stats s now code r n h hl

/-- Witness for C4: three visits of a fresh record's code raise its reported
`click_count` from 0 to 3, and a newly created record carries `clickCount` 0. -/
theorem C4_clickCount_lifecycle_witness :
    getUrlStats (resolveN 5 "ab" 3 [(⟨"ab", "u", 0, none, 0⟩ : ShortLink)]) "ab" =
      Except.ok ⟨"ab", "u", 0 + 3, 0, none⟩ ∧
    (createShortUrl [] "https://e.com" none 2 "c1").2 =
      [(⟨"c1", "https://e.com", 2, none, 0⟩ : ShortLink)] :=
  ⟨(C4_clickCount_lifecycle "b").2.2 [⟨"ab", "u", 0, none, 0⟩] 5 "ab"
      ⟨"ab", "u", 0, none, 0⟩ 3 rfl (by intro t ht; exact Option.noConfusion ht),
    (C4_clickCount_lifecycle "b").1 [] "https://e.com" none 2 "c1" rfl⟩

end ShortUrl
